import Mathlib

/-
Verification of the editty mobile app screen (src/app/(tabs)/index.tsx and
src/components/ImageViewer.tsx): a shallow embedding of the per-screen
state and of the user-triggered handlers, with the asynchronous library
calls (image picker, view capture, media-library write) modelled as
environment outcomes passed to the handlers, and the observable side
effects (alerts, console logs, media-library writes) collected in a list.
-/

namespace Editty

/-- An image source as the screen stores it: either the bundled asset
obtained by the require call, or a string URI returned by the picker. -/
inductive ImageSource where
  | asset : ImageSource
  | uri : String → ImageSource
  deriving DecidableEq

/-- The bundled default background, bound in the component body as
ImageProvider via require of assets/images/background-image.png. -/
def ImageProvider : ImageSource := ImageSource.asset

/-- JavaScript truthiness of an image-source value: a bundled asset
reference is a non-zero module id and thus truthy; a string URI is truthy
exactly when it is non-empty. -/
def ImageSource.jsTruthy : ImageSource → Bool
  | ImageSource.asset => true
  | ImageSource.uri s => s != ""

/-- The four useState hooks of the Index component. The image state is
Option-valued: none models the initial undefined. The picked emoji is an
optional reference into the fixed sticker catalog, modelled by an index. -/
structure ScreenState where
  image : Option ImageSource
  showAppOptions : Bool
  showEmojiPickerModal : Bool
  pickedEmoji : Option Nat
  deriving DecidableEq

/-- The initial values of the four useState hooks on mount. -/
def initState : ScreenState :=
  { image := none
    showAppOptions := false
    showEmojiPickerModal := false
    pickedEmoji := none }

/-- Observable side effects a handler can emit, in order: a blocking
alert with its message, a console log, or a media-library write
(MediaLibrary.saveToLibraryAsync) with its URI argument. -/
inductive Effect where
  | alertMsg : String → Effect
  | consoleLog : Effect
  | mediaSave : String → Effect
  deriving DecidableEq

/-- Recognizer for media-library write effects. -/
def Effect.isMediaSave : Effect → Bool
  | Effect.mediaSave _ => true
  | _ => false

/-- Outcome of ImagePicker.launchImageLibraryAsync as the handler reads
it: either result.canceled is true, or the call returns at least one
asset and the handler reads result.assets[0].uri. -/
inductive PickerResult where
  | canceled : PickerResult
  | picked : String → PickerResult
  deriving DecidableEq

/-- The pickImageAsync handler: on a non-cancelled result it stores the
picked URI in the image state and sets showAppOptions to true; on a
cancelled result it leaves the state alone and emits the alert
"You did not select an Image" followed by a console log of the result. -/
def pickImageAsync : PickerResult → ScreenState → ScreenState × List Effect
  | PickerResult.picked u, s =>
      ({ s with image := some (ImageSource.uri u), showAppOptions := true }, [])
  | PickerResult.canceled, s =>
      (s, [Effect.alertMsg "You did not select an Image", Effect.consoleLog])

/-- The onReset handler: showAppOptions back to false, the image state
set to the bundled ImageProvider asset, and the picked emoji cleared. -/
def onReset (s : ScreenState) : ScreenState :=
  { s with showAppOptions := false
           image := some ImageProvider
           pickedEmoji := none }

/-- The onAddSticker handler: open the emoji picker modal. -/
def onAddSticker (s : ScreenState) : ScreenState :=
  { s with showEmojiPickerModal := true }

/-- The onEmojiModalClose handler: close the emoji picker modal. -/
def onEmojiModalClose (s : ScreenState) : ScreenState :=
  { s with showEmojiPickerModal := false }

/-- The onPress of the second footer button, labelled Use this photo:
an arrow function that only calls setShowAppOptions true. -/
def useThisPhotoOnPress (s : ScreenState) : ScreenState :=
  { s with showAppOptions := true }

/-- Outcome of the captureRef call inside onSaveImageAsync: either it
throws, or it resolves to a local URI string (possibly empty, the falsy
case the handler later tests with if localUri). -/
inductive CaptureOutcome where
  | throws : CaptureOutcome
  | returns : String → CaptureOutcome
  deriving DecidableEq

/-- Outcome of the MediaLibrary.saveToLibraryAsync call: it either
throws or resolves. -/
inductive SaveOutcome where
  | throws : SaveOutcome
  | ok : SaveOutcome
  deriving DecidableEq

/-- The onSaveImageAsync handler. Inside the try block: await captureRef;
then await MediaLibrary.saveToLibraryAsync on the captured URI; then
alert "Saved Succesfully!!!" when the URI is truthy, otherwise alert
"Save Failed!! ):". The catch block only logs the error to the console.
No state setter is ever called, so the state component is returned
unchanged. -/
def onSaveImageAsync (cap : CaptureOutcome) (sav : SaveOutcome)
    (s : ScreenState) : ScreenState × List Effect :=
  match cap with
  | CaptureOutcome.throws => (s, [Effect.consoleLog])
  | CaptureOutcome.returns localUri =>
      match sav with
      | SaveOutcome.throws =>
          (s, [Effect.mediaSave localUri, Effect.consoleLog])
      | SaveOutcome.ok =>
          if localUri != "" then
            (s, [Effect.mediaSave localUri, Effect.alertMsg "Saved Succesfully!!!"])
          else
            (s, [Effect.mediaSave localUri, Effect.alertMsg "Save Failed!! ):"])

/-- The permission response object MediaLibrary.usePermissions resolves
to; only its granted field matters here. The hook yields null before the
response is available, modelled by the surrounding Option. -/
structure PermissionResponse where
  granted : Bool
  deriving DecidableEq

/-- The render-time permission check of the Index component body:
if permissionStatus === null then requestPermission() is called, its
promise discarded. This predicate says whether the request is made. -/
def requestsPermissionOnRender : Option PermissionResponse → Bool
  | none => true
  | some _ => false

/-- Whether photo-library permission is granted in a given hook status:
a null status or a response with granted false are both not granted. -/
def permissionGranted : Option PermissionResponse → Bool
  | none => false
  | some r => r.granted

/-- The source prop handed to ImageViewer: the JSX ternary
image ? image : ImageProvider. The result type mirrors the JavaScript
union with undefined as an Option; the expression itself never yields
undefined because both branches produce a value. -/
def renderedBackground (s : ScreenState) : Option ImageSource :=
  match s.image with
  | some v => if v.jsTruthy then some v else some ImageProvider
  | none => some ImageProvider

/-- Modelled from the spec: components/EmojiList.tsx is not among the
provided sources, only its use site in index.tsx is. Per the spec,
selecting an entry sets the active Sticker Reference (via the onSelect
prop, bound to setPickedEmoji) and closes the modal (via the
onCloseModal prop, bound to onEmojiModalClose). -/
def selectEmoji (e : Nat) (s : ScreenState) : ScreenState :=
  { s with pickedEmoji := some e, showEmojiPickerModal := false }

/-- A user-triggered event on the screen, together with the outcome the
environment gives to the asynchronous library calls it awaits. -/
inductive Event where
  | pick : PickerResult → Event
  | reset : Event
  | usePhoto : Event
  | addSticker : Event
  | closeModal : Event
  | chooseEmoji : Nat → Event
  | save : CaptureOutcome → SaveOutcome → Event

/-- The state transition an event induces, dispatching to the handler
the corresponding onPress is wired to. -/
def step : Event → ScreenState → ScreenState
  | Event.pick r, s => (pickImageAsync r s).1
  | Event.reset, s => onReset s
  | Event.usePhoto, s => useThisPhotoOnPress s
  | Event.addSticker, s => onAddSticker s
  | Event.closeModal, s => onEmojiModalClose s
  | Event.chooseEmoji e, s => selectEmoji e s
  | Event.save c o, s => (onSaveImageAsync c o s).1

/-- States reachable from the mount state by any sequence of events. -/
inductive Reachable : ScreenState → Prop where
  | init : Reachable initState
  | next : ∀ {s : ScreenState} (e : Event), Reachable s → Reachable (step e s)

/-- Claim C1 counterexample: invoking the export handler with the capture
call throwing is a failing invocation, yet the emitted effects are exactly
one console log — no alert of any kind, in particular no failure alert,
contradicting the claim that every failed export shows a failure alert. -/
theorem captureThrows_shows_no_alert :
    (onSaveImageAsync CaptureOutcome.throws SaveOutcome.ok initState).2
      = [Effect.consoleLog] ∧
    Effect.alertMsg "Save Failed!! ):"
      ∉ (onSaveImageAsync CaptureOutcome.throws SaveOutcome.ok initState).2 := by
  exact ⟨rfl, by decide⟩

/-- Claim C1 (amended): when the capture resolves to a falsy (empty) URI
and the media-library write returns normally, the failure alert
"Save Failed!! ):" is shown; when the capture throws, no alert is shown at
all — the handler only logs the error to the console. -/
theorem export_failure_alert (s : ScreenState) (o : SaveOutcome) :
    Effect.alertMsg "Save Failed!! ):"
      ∈ (onSaveImageAsync (CaptureOutcome.returns "") SaveOutcome.ok s).2 ∧
    (onSaveImageAsync CaptureOutcome.throws o s).2 = [Effect.consoleLog] := by
  refine ⟨?_, rfl⟩
  simp [onSaveImageAsync]

/-- Claim C2 counterexample: an invocation in which the capture succeeds
with a truthy URI but the media-library write throws emits the write and a
console log, and no success alert — contradicting the claim that capture
success always ends in a success alert. -/
theorem saveThrows_no_success_alert :
    (onSaveImageAsync (CaptureOutcome.returns "file.png") SaveOutcome.throws
        initState).2
      = [Effect.mediaSave "file.png", Effect.consoleLog] ∧
    Effect.alertMsg "Saved Succesfully!!!"
      ∉ (onSaveImageAsync (CaptureOutcome.returns "file.png") SaveOutcome.throws
          initState).2 := by
  exact ⟨rfl, by decide⟩

/-- Claim C2 (amended): whenever the capture succeeds with a truthy URI,
exactly one media-library write call is made and its argument is that URI;
when the write also returns normally, the emitted effects are exactly the
write followed by the success alert. -/
theorem capture_success_single_write (s : ScreenState) (u : String)
    (hu : u ≠ "") (o : SaveOutcome) :
    (onSaveImageAsync (CaptureOutcome.returns u) o s).2.filter Effect.isMediaSave
      = [Effect.mediaSave u] ∧
    (o = SaveOutcome.ok →
      (onSaveImageAsync (CaptureOutcome.returns u) o s).2
        = [Effect.mediaSave u, Effect.alertMsg "Saved Succesfully!!!"]) := by
  cases o <;>
    simp [onSaveImageAsync, Effect.isMediaSave, List.filter, hu]

/-- Witness for capture success single write, at the concrete URI
file.png, the mount state and a write that returns normally. -/
theorem capture_success_single_write_witness :
    ("file.png" ≠ "") ∧
    ((onSaveImageAsync (CaptureOutcome.returns "file.png") SaveOutcome.ok
        initState).2.filter Effect.isMediaSave
      = [Effect.mediaSave "file.png"] ∧
    (SaveOutcome.ok = SaveOutcome.ok →
      (onSaveImageAsync (CaptureOutcome.returns "file.png") SaveOutcome.ok
          initState).2
        = [Effect.mediaSave "file.png",
           Effect.alertMsg "Saved Succesfully!!!"])) :=
  ⟨by decide,
   capture_success_single_write initState "file.png" (by decide) SaveOutcome.ok⟩

/-- Claim C3: when the capture call throws, the handler emits no
media-library write effect at all, whatever the write outcome parameter
would have been. -/
theorem capture_throws_no_write (s : ScreenState) (o : SaveOutcome) :
    (onSaveImageAsync CaptureOutcome.throws o s).2.filter Effect.isMediaSave
      = [] := rfl

/-- Claim C4 counterexample: a loaded permission response with granted
false is a state in which permission is not granted, yet the screen does
not request the permission — the render-time check requests only when the
hook status is still null. -/
theorem denied_permission_no_request :
    permissionGranted (some { granted := false }) = false ∧
    requestsPermissionOnRender (some { granted := false }) = false := by
  decide

/-- Claim C4 (amended): the screen requests the photo-library permission
on render exactly when the hook status is still null (not yet loaded); a
loaded response, granted or not, triggers no request. -/
theorem permission_requested_iff_status_null (p : Option PermissionResponse) :
    requestsPermissionOnRender p = true ↔ p = none := by
  cases p <;> simp [requestsPermissionOnRender]

/-- Claim C5: a cancelled pick leaves the image state and the
showAppOptions flag unchanged and emits the cancellation alert together
with a console log. -/
theorem picker_cancel_state_unchanged (s : ScreenState) :
    (pickImageAsync PickerResult.canceled s).1.image = s.image ∧
    (pickImageAsync PickerResult.canceled s).1.showAppOptions
      = s.showAppOptions ∧
    Effect.alertMsg "You did not select an Image"
      ∈ (pickImageAsync PickerResult.canceled s).2 ∧
    Effect.consoleLog ∈ (pickImageAsync PickerResult.canceled s).2 := by
  refine ⟨rfl, rfl, ?_, ?_⟩ <;> simp [pickImageAsync]

/-- Claim C6: a successful pick stores the picked URI in the image state
and sets showAppOptions to true. -/
theorem picker_success_sets_image (s : ScreenState) (u : String) :
    (pickImageAsync (PickerResult.picked u) s).1.image
      = some (ImageSource.uri u) ∧
    (pickImageAsync (PickerResult.picked u) s).1.showAppOptions = true :=
  ⟨rfl, rfl⟩

/-- Claim C7: from any state, reset makes the canvas render the bundled
default background, clears the picked emoji, and turns showAppOptions
back off. -/
theorem reset_restores_defaults (s : ScreenState) :
    renderedBackground (onReset s) = some ImageProvider ∧
    (onReset s).pickedEmoji = none ∧
    (onReset s).showAppOptions = false :=
  ⟨rfl, rfl, rfl⟩

/-- Claim C8: when the capture call throws, the export handler returns
the screen state unchanged — no state field is touched. -/
theorem capture_throws_state_unchanged (s : ScreenState) (o : SaveOutcome) :
    (onSaveImageAsync CaptureOutcome.throws o s).1 = s := rfl

/-- Claim C9: pressing the Use this photo button sets showAppOptions to
true and leaves the image state and the picked emoji unchanged. -/
theorem use_this_photo_enters_editing (s : ScreenState) :
    (useThisPhotoOnPress s).showAppOptions = true ∧
    (useThisPhotoOnPress s).image = s.image ∧
    (useThisPhotoOnPress s).pickedEmoji = s.pickedEmoji :=
  ⟨rfl, rfl, rfl⟩

/-- Claim C10: in every reachable state the canvas receives a defined
background source, and when the image state is still undefined the
bundled default background is the one displayed. -/
theorem reachable_background_defined (s : ScreenState) (h : Reachable s) :
    (renderedBackground s).isSome = true ∧
    (s.image = none → renderedBackground s = some ImageProvider) := by
  constructor
  · rcases hs : s.image with _ | v
    · simp [renderedBackground, hs]
    · cases hv : v.jsTruthy <;> simp [renderedBackground, hs, hv]
  · intro hn
    simp [renderedBackground, hn]

/-- Witness for reachable background defined, at the mount state, which
is reachable by the empty event sequence. -/
theorem reachable_background_defined_witness :
    (renderedBackground initState).isSome = true ∧
    (initState.image = none → renderedBackground initState = some ImageProvider) :=
  reachable_background_defined initState Reachable.init

end Editty
